import Mathlib

/-!
Verification of the command layer of MeshNetSimulator (src/cmd.rs).

The file shallowly embeds `cmd.rs` in Lean: the tokenizer, the command
table and parser (`parse_command`), and the command interpreter
(`cmd_handler`) are translated directly from the Rust source.  The
collaborators that live in files outside src/ (graph.rs, sim.rs,
eval_paths.rs, debug_path.rs, movements.rs, the routing algorithms) are
modelled from the specification; each such definition carries a doc
comment starting with `Modelled from the spec:`.

Machine integers: all Rust `u32` values are embedded as `Nat` with the
`< 2^32` bound enforced at parse time (exactly where the Rust code
enforces it, in `str::parse::<u32>`); no arithmetic in this layer can
overflow afterwards.  Floating point values (`f32` command arguments,
node positions) are carried as raw tokens / abstract version counters:
no claim inspects them.  Wall-clock durations are abstract.
-/

set_option maxRecDepth 100000

set_option maxHeartbeats 1000000

namespace MeshNet

/-- Whitespace test used by the tokenizer.  Rust's `split_whitespace`
splits on Unicode whitespace; command input is ASCII, so space, tab,
newline and carriage return are modelled. -/
def isWsChar (c : Char) : Bool :=
  c == ' ' || c == Char.ofNat 9 || c == Char.ofNat 10 || c == Char.ofNat 13

/-- Split a character list at whitespace, dropping empty pieces — the
behaviour of `input.split_whitespace()` in `parse_command`. -/
def split_ws_go (acc : List Char) : List Char → List (List Char)
  | [] => if acc.isEmpty then [] else [acc.reverse]
  | c :: r =>
    if isWsChar c then
      (if acc.isEmpty then split_ws_go [] r else acc.reverse :: split_ws_go [] r)
    else
      split_ws_go (c :: acc) r

/-- Quote characters, the ones trimmed from each token in `parse_command`. -/
def quote_char (c : Char) : Bool :=
  c == Char.ofNat 39 || c == Char.ofNat 34

/-- Rust `trim_matches` over the quote characters: remove quote
characters from both ends of a token. -/
def trimQuotes (l : List Char) : List Char :=
  ((l.dropWhile quote_char).reverse.dropWhile quote_char).reverse

/-- Rust `str::trim_start`: drop leading whitespace. -/
def trimStartWs : List Char → List Char
  | [] => []
  | c :: r => if isWsChar c then trimStartWs r else c :: r

/-- The token list of an input line: split at whitespace, then trim
quote characters from every token (`parse_command`, first loop). -/
def tokenize (input : String) : List String :=
  (split_ws_go [] input.data).map (fun t => String.mk (trimQuotes t))

/-- ASCII digit test. -/
def isDigitChar (c : Char) : Bool :=
  48 ≤ c.toNat && c.toNat ≤ 57

/-- Rust `str::parse::<u32>`: an optional leading `+`, then at least one
digit, the value bounded by `u32::MAX`; anything else fails. -/
def parseU32 (t : List Char) : Option Nat :=
  let t2 := match t with
    | c :: r => if c == '+' then r else t
    | [] => t
  if t2.isEmpty then none
  else if t2.all isDigitChar then
    let v := t2.foldl (fun a c => a * 10 + (c.toNat - 48)) 0
    if v < 4294967296 then some v else none
  else none

/-- Rust `str::parse::<bool>`: exactly `true` or `false`. -/
def parseBool (t : List Char) : Option Bool :=
  if t = "true".data then some true
  else if t = "false".data then some false
  else none

/-- Recogniser for `str::parse::<f32>` arguments.  Modelled from the
spec: node positions and movement are excluded collaborators, so the
numeric value is never inspected by any claim; the model accepts an
optional sign followed by digits with at most one decimal point (a
subset of Rust's float grammar — special forms such as `inf` or
exponents are not modelled). -/
def parse_f32_ok (t : List Char) : Bool :=
  let t2 := match t with
    | c :: r => if c == '+' || c == '-' then r else t
    | [] => t
  t2.any isDigitChar
    && t2.all (fun c => isDigitChar c || c == '.')
    && decide ((t2.filter (fun c => c == '.')).length ≤ 1)

/-- Command identifiers, one per entry of the `Cid` enum in cmd.rs. -/
inductive Cid
  | Error
  | Help
  | ClearGraph
  | GraphInfo
  | SimInfo
  | ResetSim
  | Exit
  | Progress
  | ShowMinimumSpanningTree
  | CropMinimumSpanningTree
  | Test
  | Debug
  | DebugStep
  | Get
  | Set
  | ConnectInRange
  | RandomizePositions
  | RemoveUnconnected
  | Algorithm
  | AddLine
  | AddTree
  | AddStar
  | AddLattice4
  | AddLattice8
  | Positions
  | RemoveNodes
  | ConnectNodes
  | DisconnectNodes
  | SimStep
  | Run
  | Import
  | ExportPath
  | MoveNode
  | MoveNodes
  | MoveTo
deriving Repr, DecidableEq

/-- The `COMMANDS` table of cmd.rs: help line and command identifier.
The empty entries are the separator lines mapped to `Cid.Error`. -/
def COMMANDS : List (String × Cid) := [
  ("algo [<algorithm>]                 Get or set given algorithm.", Cid.Algorithm),
  ("sim_step [<steps>]                 Run simulation steps. Default is 1.", Cid.SimStep),
  ("sim_reset                          Reset simulation.", Cid.ResetSim),
  ("sim_info                           Show simulator information.", Cid.SimInfo),
  ("progress [<true|false>]            Show simulation progress.", Cid.Progress),
  ("test [<samples>]                   Test routing algorithm with (test packets arrived, path stretch).", Cid.Test),
  ("debug_init <from> <to>             Debug a path step wise.", Cid.Debug),
  ("debug_step [<steps>]               Perform step on path.", Cid.DebugStep),
  ("", Cid.Error),
  ("graph_info                         Show graph information", Cid.GraphInfo),
  ("get <key>                          Get node property.", Cid.Get),
  ("set <key> <value>                  Set node property.", Cid.Set),
  ("", Cid.Error),
  ("graph_clear                        Clear graph", Cid.ClearGraph),
  ("line <node_count> [<create_loop>]  Add a line of nodes. Connect ends to create a loop.", Cid.AddLine),
  ("star <edge_count>                  Add star structure of nodes.", Cid.AddStar),
  ("tree <node_count> [<inter_count>]  Add a tree structure of nodes with interconnections", Cid.AddTree),
  ("lattice4 <x_xount> <y_count>       Create a lattice structure of squares.", Cid.AddLattice4),
  ("lattice8 <x_xount> <y_count>       Create a lattice structure of squares and diagonal connections.", Cid.AddLattice8),
  ("remove_nodes <node_list>           Remove nodes. Node list is a comma separated list of node ids.", Cid.RemoveNodes),
  ("connect_nodes <node_list>          Connect nodes. Node list is a comma separated list of node ids.", Cid.ConnectNodes),
  ("disconnect_nodes <node_list>       Disconnect nodes. Node list is a comma separated list of node ids.", Cid.DisconnectNodes),
  ("remove_unconnected                 Remove nodes without any connections.", Cid.RemoveUnconnected),
  ("", Cid.Error),
  ("positions <true|false>             Enable geo positions.", Cid.Positions),
  ("move_node <node_id> <x> <y> <z>    Move a node by x/y/z (in km).", Cid.MoveNode),
  ("move_nodes <x> <y> <z>             Move all nodes by x/y/z (in km).", Cid.MoveNodes),
  ("move_to <x> <y> <z>                Move all nodes to x/y/z (in degrees).", Cid.MoveTo),
  ("rnd_pos <range>                    Randomize node positions in an area with width (in km) around node center.", Cid.RandomizePositions),
  ("connect_in_range <range>           Connect all nodes in range of less then range (in km).", Cid.ConnectInRange),
  ("", Cid.Error),
  ("run <file>                         Run commands from a script.", Cid.Run),
  ("import <file>                      Import a graph as JSON file.", Cid.Import),
  ("export [<file>]                    Get or set graph export file.", Cid.ExportPath),
  ("show_mst                           Mark the minimum spanning tree.", Cid.ShowMinimumSpanningTree),
  ("crop_mst                           Only leave the minimum spanning tree.", Cid.CropMinimumSpanningTree),
  ("exit                               Exit simulator.", Cid.Exit),
  ("help                               Show this help.", Cid.Help)
]

/-- Character-list prefix test (reduction-friendly version of
`str::starts_with`). -/
def chars_match : List Char → List Char → Bool
  | [], _ => true
  | _ :: _, [] => false
  | a :: as, b :: bs => a == b && chars_match as bs

/-- The `is_first_token` test of cmd.rs: the help line `s` starts with the token
`tok` and the next character is a space (the byte index equals the
character index because the table is ASCII). -/
def is_first_token (s tok : String) : Bool :=
  chars_match tok.data s.data
    && decide (tok.data.length < s.data.length)
    && (s.data.get? tok.data.length == some ' ')

/-- The scan of the `COMMANDS` table performed by `lookup_cmd`:
first matching entry wins, otherwise `Cid::Error`. -/
def lookup_in : List (String × Cid) → String → Cid
  | [], _ => Cid.Error
  | item :: rest, cmd =>
    if is_first_token item.fst cmd then item.snd else lookup_in rest cmd

/-- The `lookup_cmd` scan of cmd.rs. -/
def lookup_cmd (cmd : String) : Cid := lookup_in COMMANDS cmd

/-- Split a character list at every `,` — `str::split(",")`, which
yields at least one (possibly empty) piece. -/
def splitComma : List Char → List (List Char)
  | [] => [[]]
  | c :: r =>
    if c == ',' then [] :: splitComma r
    else
      match splitComma r with
      | h :: t => (c :: h) :: t
      | [] => [[c]]

/-- All-or-nothing parse of the comma separated pieces. -/
def parse_all : List (List Char) → Option (List Nat)
  | [] => some []
  | p :: r =>
    match parseU32 p, parse_all r with
    | some n, some v => some (n :: v)
    | _, _ => none

/-- The `parse_list` helper of cmd.rs: `numbers.unwrap_or("")` split on `,`, every
piece must parse as `u32`, otherwise the whole parse fails.  A missing
argument therefore fails, because splitting the empty string yields one
empty piece. -/
def parse_list (numbers : Option String) : Option (List Nat) :=
  parse_all (splitComma (numbers.getD "").data)

/-- The `Command` enum of cmd.rs.  `f32` arguments are carried as their
raw (already validated) tokens: no claim inspects their numeric value. -/
inductive Command
  | Error (msg : String)
  | Ignore
  | Help
  | ClearGraph
  | GraphInfo
  | SimInfo
  | ResetSim
  | Exit
  | Progress (show_opt : Option Bool)
  | ShowMinimumSpanningTree
  | CropMinimumSpanningTree
  | Test (samples : Nat)
  | Debug (a : Nat) (b : Nat)
  | DebugStep (steps : Nat)
  | Get (key : String)
  | Set (key : String) (value : String)
  | ConnectInRange (range : String)
  | RandomizePositions (range : String)
  | RemoveUnconnected
  | Algorithm (algo : Option String)
  | AddLine (count : Nat) (close : Bool)
  | AddTree (count : Nat) (intra : Nat)
  | AddStar (count : Nat)
  | AddLattice4 (x : Nat) (y : Nat)
  | AddLattice8 (x : Nat) (y : Nat)
  | Positions (enable : Bool)
  | RemoveNodes (ids : List Nat)
  | ConnectNodes (ids : List Nat)
  | DisconnectNodes (ids : List Nat)
  | SimStep (count : Nat)
  | Run (path : String)
  | Import (path : String)
  | ExportPath (path : Option String)
  | MoveNode (id : Nat) (x : String) (y : String) (z : String)
  | MoveNodes (x : String) (y : String) (z : String)
  | MoveTo (x : String) (y : String) (z : String)
deriving Repr, DecidableEq

/-- The body of `parse_command` after tokenisation.  `arg i` is the
i-th token after the command word (the `scan!` iterator position i);
`tokens.get? 1` is the `tokens.get(1)` used by the node-list commands. -/
def parse_tokens (tokens : List String) : Command :=
  let cmd := tokens.headD ""
  let arg := fun (i : Nat) => tokens.get? (i + 1)
  let argU32 := fun (i : Nat) => (arg i).bind (fun s => parseU32 s.data)
  let argBool := fun (i : Nat) => (arg i).bind (fun s => parseBool s.data)
  let argF32 := fun (i : Nat) =>
    match arg i with
    | some s => parse_f32_ok s.data
    | none => false
  let error := Command.Error "Missing Arguments"
  match lookup_cmd cmd with
  | Cid.Help => Command.Help
  | Cid.SimInfo => Command.SimInfo
  | Cid.GraphInfo => Command.GraphInfo
  | Cid.ClearGraph => Command.ClearGraph
  | Cid.ResetSim => Command.ResetSim
  | Cid.Exit => Command.Exit
  | Cid.Progress =>
    match argBool 0 with
    | some b => Command.Progress (some b)
    | none => Command.Progress none
  | Cid.ShowMinimumSpanningTree => Command.ShowMinimumSpanningTree
  | Cid.CropMinimumSpanningTree => Command.CropMinimumSpanningTree
  | Cid.Test =>
    match argU32 0 with
    | some n => Command.Test n
    | none => Command.Test 1000
  | Cid.Debug =>
    match argU32 0, argU32 1 with
    | some f, some t => Command.Debug f t
    | _, _ => error
  | Cid.DebugStep =>
    match argU32 0 with
    | some n => Command.DebugStep n
    | none => Command.DebugStep 1
  | Cid.Get =>
    match arg 0 with
    | some k => Command.Get k
    | none => error
  | Cid.Set =>
    match arg 0, arg 1 with
    | some k, some v => Command.Set k v
    | _, _ => error
  | Cid.SimStep =>
    Command.SimStep (match argU32 0 with
      | some n => n
      | none => 1)
  | Cid.Run =>
    match arg 0 with
    | some p => Command.Run p
    | none => error
  | Cid.Import =>
    match arg 0 with
    | some p => Command.Import p
    | none => error
  | Cid.ExportPath =>
    match arg 0 with
    | some p => Command.ExportPath (some p)
    | none => Command.ExportPath none
  | Cid.MoveNodes =>
    if argF32 0 && argF32 1 && argF32 2 then
      Command.MoveNodes ((arg 0).getD "") ((arg 1).getD "") ((arg 2).getD "")
    else error
  | Cid.MoveNode =>
    match argU32 0 with
    | some id =>
      if argF32 1 && argF32 2 && argF32 3 then
        Command.MoveNode id ((arg 1).getD "") ((arg 2).getD "") ((arg 3).getD "")
      else error
    | none => error
  | Cid.AddLine =>
    match argU32 0, argBool 1 with
    | some c, some b => Command.AddLine c b
    | some c, none => Command.AddLine c false
    | none, _ => error
  | Cid.AddTree =>
    match argU32 0, argU32 1 with
    | some c, some i => Command.AddTree c i
    | some c, none => Command.AddTree c 0
    | none, _ => error
  | Cid.AddStar =>
    match argU32 0 with
    | some c => Command.AddStar c
    | none => error
  | Cid.AddLattice4 =>
    match argU32 0, argU32 1 with
    | some x, some y => Command.AddLattice4 x y
    | _, _ => error
  | Cid.AddLattice8 =>
    match argU32 0, argU32 1 with
    | some x, some y => Command.AddLattice8 x y
    | _, _ => error
  | Cid.Positions =>
    match argBool 0 with
    | some b => Command.Positions b
    | none => error
  | Cid.ConnectInRange =>
    if argF32 0 then Command.ConnectInRange ((arg 0).getD "") else error
  | Cid.RandomizePositions =>
    if argF32 0 then Command.RandomizePositions ((arg 0).getD "") else error
  | Cid.Algorithm =>
    match arg 0 with
    | some a => Command.Algorithm (some a)
    | none => Command.Algorithm none
  | Cid.RemoveNodes =>
    match parse_list (tokens.get? 1) with
    | some ids => Command.RemoveNodes ids
    | none => error
  | Cid.ConnectNodes =>
    match parse_list (tokens.get? 1) with
    | some ids => Command.ConnectNodes ids
    | none => error
  | Cid.DisconnectNodes =>
    match parse_list (tokens.get? 1) with
    | some ids => Command.DisconnectNodes ids
    | none => error
  | Cid.RemoveUnconnected => Command.RemoveUnconnected
  | Cid.MoveTo =>
    if argF32 0 && argF32 1 && argF32 2 then
      Command.MoveTo ((arg 0).getD "") ((arg 1).getD "") ((arg 2).getD "")
    else error
  | Cid.Error =>
    if cmd = "" then Command.Ignore
    else if chars_match ['#'] (trimStartWs cmd.data) then Command.Ignore
    else Command.Error ("Unknown Command: " ++ cmd)

/-- The `parse_command` function of cmd.rs: tokenize, then dispatch on the command
word. -/
def parse_command (input : String) : Command :=
  parse_tokens (tokenize input)

/-- Modelled from the spec: graph.rs is not under src/.  "Graph: set of
node ids + set of links forming a symmetric adjacency structure"; links
are stored as unordered pairs (one direction kept). -/
structure Graph where
  nodes : List Nat
  links : List (Nat × Nat)
deriving Repr, DecidableEq

def Graph.node_count (g : Graph) : Nat := g.nodes.length

def Graph.link_count (g : Graph) : Nat := g.links.length

/-- Modelled from the spec: "clear all state". -/
def Graph.clear (_g : Graph) : Graph := ⟨[], []⟩

/-- Modelled from the spec: "average node degree" query; the value is a
float in the code, abstracted here to the rounded-down mean. -/
def Graph.get_avg_node_degree (g : Graph) : Nat :=
  if g.node_count = 0 then 0 else 2 * g.link_count / g.node_count

/-- Modelled from the spec: "removal cascades to delete all links
touching the removed ids"; "node_count decreases by exactly the removed
count". -/
def Graph.remove_nodes (g : Graph) (ids : List Nat) : Graph :=
  { nodes := g.nodes.filter (fun n => !(ids.contains n)),
    links := g.links.filter (fun l => !(ids.contains l.fst) && !(ids.contains l.snd)) }

def Graph.has_link (g : Graph) (a b : Nat) : Bool :=
  g.links.any (fun l => (l.fst == a && l.snd == b) || (l.fst == b && l.snd == a))

/-- All ordered pairs of distinct positions of a list. -/
def allPairs : List Nat → List (Nat × Nat)
  | [] => []
  | a :: r => r.map (fun b => (a, b)) ++ allPairs r

/-- Modelled from the spec: "connect arbitrary id sets"; an edit
referencing a nonexistent id is a no-op for that id; no self loops, at
most one link per pair.  The spec leaves open whether a multi-id set is
connected completely or as a chain; the complete-subgraph reading is
modelled (no claim depends on the choice). -/
def Graph.connect_nodes (g : Graph) (ids : List Nat) : Graph :=
  (allPairs ids).foldl
    (fun g2 p =>
      if g2.nodes.contains p.fst && g2.nodes.contains p.snd
          && !(p.fst == p.snd) && !(g2.has_link p.fst p.snd) then
        { g2 with links := g2.links ++ [p] }
      else g2)
    g

/-- Modelled from the spec: "disconnect arbitrary id sets" — remove the
links both of whose endpoints are in the given set. -/
def Graph.disconnect_nodes (g : Graph) (ids : List Nat) : Graph :=
  { g with links :=
      g.links.filter (fun l => !(ids.contains l.fst && ids.contains l.snd)) }

/-- Modelled from the spec: "drop unconnected (isolated) nodes". -/
def Graph.remove_unconnected_nodes (g : Graph) : Graph :=
  { g with nodes :=
      g.nodes.filter (fun n => g.links.any (fun l => l.fst == n || l.snd == n)) }

/-- One round of reachability expansion along a link list. -/
def expandOnce (links : List (Nat × Nat)) (vis : List Nat) : List Nat :=
  links.foldl
    (fun vs l =>
      let vs2 := if vs.contains l.fst && !(vs.contains l.snd) then l.snd :: vs else vs
      if vs2.contains l.snd && !(vs2.contains l.fst) then l.fst :: vs2 else vs2)
    vis

/-- Fuelled reachability closure (fuel = node count suffices). -/
def reachSet (links : List (Nat × Nat)) : Nat → List Nat → List Nat
  | 0, vis => vis
  | f + 1, vis => reachSet links f (expandOnce links vis)

/-- Normalize a link to (low, high) order. -/
def normLink (l : Nat × Nat) : Nat × Nat :=
  if l.fst ≤ l.snd then l else (l.snd, l.fst)

/-- Lexicographic link order used for the deterministic tie-break. -/
def linkLe (a b : Nat × Nat) : Bool :=
  a.fst < b.fst || (a.fst == b.fst && a.snd ≤ b.snd)

def insertLink (l : Nat × Nat) : List (Nat × Nat) → List (Nat × Nat)
  | [] => [l]
  | h :: t => if linkLe l h then l :: h :: t else h :: insertLink l t

def sortLinks : List (Nat × Nat) → List (Nat × Nat)
  | [] => []
  | h :: t => insertLink h (sortLinks t)

/-- Modelled from the spec: the minimum spanning forest, computed per
connected component with Kruskal; positions are abstracted away, so
every edge has unit weight and ties are broken by the deterministic
lowest-id link order ("tie-breaking is deterministic, lowest node id
wins").  The result keeps all nodes and only the forest links, kept
uni-directionally (cmd.rs: "mst is only a uni-directional graph"). -/
def Graph.minimum_spanning_tree (g : Graph) : Graph :=
  let sorted := sortLinks (g.links.map normLink)
  let kept := sorted.foldl
    (fun kept l =>
      if (reachSet kept g.nodes.length [l.fst]).contains l.snd then kept
      else kept ++ [l])
    []
  { nodes := g.nodes, links := kept }

/-- Fresh node id for the topology generators: one past the largest id. -/
def Graph.next_id (g : Graph) : Nat :=
  g.nodes.foldl (fun a n => max a (n + 1)) 0

/-- Modelled from the spec: `line <node_count> [<create_loop>]` — add a
line of nodes, connecting the ends when a loop is requested. -/
def Graph.add_line (g : Graph) (count : Nat) (close : Bool) : Graph :=
  if count = 0 then g
  else
    let b := g.next_id
    { nodes := g.nodes ++ (List.range count).map (fun i => b + i),
      links := g.links
        ++ (List.range (count - 1)).map (fun i => (b + i, b + i + 1))
        ++ (if close && decide (2 < count) then [(b + count - 1, b)] else []) }

/-- Modelled from the spec: `tree <node_count> [<inter_count>]` — add a
tree of nodes; each new node links to a parent (binary-heap shape); the
randomized extra interconnections are not modelled (no claim depends on
the generated shape, only on the node count changing). -/
def Graph.add_tree (g : Graph) (count : Nat) (_intra : Nat) : Graph :=
  if count = 0 then g
  else
    let b := g.next_id
    { nodes := g.nodes ++ (List.range count).map (fun i => b + i),
      links := g.links
        ++ (List.range (count - 1)).map (fun i => (b + (i + 1 - 1) / 2, b + i + 1)) }

/-- Modelled from the spec: `star <edge_count>` — a center node with
`count` leaves. -/
def Graph.add_star (g : Graph) (count : Nat) : Graph :=
  let b := g.next_id
  { nodes := g.nodes ++ (List.range (count + 1)).map (fun i => b + i),
    links := g.links ++ (List.range count).map (fun i => (b, b + i + 1)) }

/-- Modelled from the spec: `lattice4` / `lattice8` — a grid of
`x * y` nodes with horizontal/vertical links, plus diagonals for
lattice8. -/
def Graph.add_lattice (g : Graph) (x y : Nat) (diag : Bool) : Graph :=
  if x = 0 || y = 0 then g
  else
    let b := g.next_id
    let idx := fun (i j : Nat) => b + j * x + i
    let horiz := ((List.range y).map
      (fun j => (List.range (x - 1)).map (fun i => (idx i j, idx (i + 1) j)))).flatten
    let vert := ((List.range (y - 1)).map
      (fun j => (List.range x).map (fun i => (idx i j, idx i (j + 1))))).flatten
    let diags := if diag then
        ((List.range (y - 1)).map
          (fun j => (List.range (x - 1)).map
            (fun i => (idx i j, idx (i + 1) (j + 1))))).flatten
        ++ ((List.range (y - 1)).map
          (fun j => (List.range (x - 1)).map
            (fun i => (idx (i + 1) j, idx i (j + 1))))).flatten
      else []
    { nodes := g.nodes ++ (List.range (x * y)).map (fun i => b + i),
      links := g.links ++ horiz ++ vert ++ diags }

/-- The error type of utils.rs (not under src/).  Modelled from the
spec: errors such as UnknownParameter are reported with a message. -/
structure MyError where
  msg : String
deriving Repr, DecidableEq

/-- Modelled from the spec: the five RoutingAlgorithm variants selected
by the factory names random, vivaldi, spring, genetic, tree. -/
inductive AlgoKind
  | random
  | vivaldi
  | spring
  | genetic
  | tree
deriving Repr, DecidableEq

/-- Modelled from the spec: the display name returned by `get("name")`
for each variant (the concrete strings live in the algorithm sources,
which are not under src/). -/
def AlgoKind.algo_name : AlgoKind → String
  | .random => "random routing"
  | .vivaldi => "vivaldi routing"
  | .spring => "spring routing"
  | .genetic => "genetic routing"
  | .tree => "spanning tree routing"

/-- Modelled from the spec: a RoutingAlgorithm variant.  `size` is the
length of the internal per-node arrays (set by `reset`); `work` stands
for the variant-specific internal state advanced by `step`; `params` is
the variant's named parameter table (`get`/`set` fail with
UnknownParameter for keys outside it; the spec guarantees only the
`name` key).  `resets` and `steps_done` are instrumentation counters
recording how often `reset` and `step` have been invoked, so that
claims about those invocations are statable; they are not algorithm
state. -/
structure Algorithm where
  kind : AlgoKind
  size : Nat
  work : Nat
  params : List (String × String)
  resets : Nat
  steps_done : Nat
deriving Repr, DecidableEq

/-- A fresh variant instance (`X::new()` of the factory). -/
def Algorithm.new (k : AlgoKind) : Algorithm :=
  ⟨k, 0, 0, [], 0, 0⟩

/-- Modelled from the spec: `reset(node_count)` reinitializes all
internal per-node state to the given size, discarding prior state. -/
def Algorithm.reset (a : Algorithm) (node_count : Nat) : Algorithm :=
  { a with size := node_count, work := 0, resets := a.resets + 1 }

/-- Modelled from the spec: `step(graph_view)` performs one unit of
background/maintenance work against a read-only view of the graph. -/
def Algorithm.step (a : Algorithm) (_g : Graph) : Algorithm :=
  { a with work := a.work + 1, steps_done := a.steps_done + 1 }

/-- Modelled from the spec: `get(key)` — the `name` key is always
answered; other keys are looked up in the parameter table and fail with
UnknownParameter when absent. -/
def Algorithm.get (a : Algorithm) (key : String) : Except MyError String :=
  if key = "name" then Except.ok a.kind.algo_name
  else match a.params.lookup key with
    | some v => Except.ok v
    | none => Except.error ⟨"Unknown parameter: " ++ key⟩

/-- Modelled from the spec: `set(key, value)` updates a recognized key
and fails with UnknownParameter otherwise. -/
def Algorithm.set (a : Algorithm) (key value : String) : Except MyError Algorithm :=
  match a.params.lookup key with
  | some _ => Except.ok
      { a with params :=
          a.params.map (fun kv => if kv.fst == key then (key, value) else kv) }
  | none => Except.error ⟨"Unknown parameter: " ++ key⟩

/-- PathRequest of the spec: a (source, destination) pair. -/
structure PathRequest where
  src : Nat
  dst : Nat
deriving Repr, DecidableEq

/-- PathResult of the spec: visited nodes, arrived flag, hop count. -/
structure PathResult where
  path : List Nat
  arrived : Bool
  hops : Nat
deriving Repr, DecidableEq

/-- Modelled from the spec: `route(request)` computes a path from the
algorithm's internal state without mutating it.  The per-variant
routing decision lives in the algorithm sources outside src/; no claim
inspects the returned path, so the decision itself is abstracted (the
degenerate request arrives immediately, others are non-arrived). -/
def Algorithm.route (a : Algorithm) (p : PathRequest) : PathResult :=
  let _ := a.work
  if p.src == p.dst then ⟨[p.src], true, 0⟩ else ⟨[p.src], false, 0⟩

/-- Modelled from the spec: the EvalPaths evaluation harness
(eval_paths.rs is not under src/): sample count, arrived count, a
stretch accumulator over arrived samples only, and the elapsed duration
(abstracted to sample count).  `clears` is an instrumentation counter
recording how often `clear` has been invoked; it is not an
accumulator. -/
structure EvalPaths where
  show_prog : Bool
  samples : Nat
  arrived_count : Nat
  hops_sum : Nat
  duration : Nat
  clears : Nat
deriving Repr, DecidableEq

/-- Modelled from the spec: "clear() resets all accumulators to
zero/empty state before a new run". -/
def EvalPaths.clear (t : EvalPaths) : EvalPaths :=
  { t with samples := 0, arrived_count := 0, hops_sum := 0, duration := 0,
           clears := t.clears + 1 }

/-- The `test.show_progress(bool)` setter of eval_paths.rs. -/
def EvalPaths.show_progress (t : EvalPaths) (b : Bool) : EvalPaths :=
  { t with show_prog := b }

/-- Modelled from the spec: the fixed-seed deterministic draw of a
source/destination pair with source distinct from destination
("observable results must remain deterministic for a fixed seed"). -/
def samplePair (g : Graph) (i : Nat) : PathRequest :=
  let nc := g.node_count
  if nc ≤ 1 then ⟨0, 0⟩
  else
    let s := i % nc
    ⟨s, (s + 1 + (i * 7) % (nc - 1)) % nc⟩

/-- Modelled from the spec: `run_samples(graph, route_fn, sample_count)`
draws `sample_count` pairs, routes each, and accumulates sample count,
arrived count, the stretch numerator over arrived samples only, and the
duration (abstracted to the sample count). -/
def EvalPaths.run_samples (t : EvalPaths) (g : Graph)
    (route : PathRequest → PathResult) (n : Nat) : EvalPaths :=
  let rs := (List.range n).map (fun i => route (samplePair g i))
  { t with
    samples := t.samples + n,
    arrived_count := t.arrived_count + (rs.filter (fun r => r.arrived)).length,
    hops_sum := t.hops_sum
      + ((rs.filter (fun r => r.arrived)).map (fun r => r.hops)).foldl
          (fun a b => a + b) 0,
    duration := t.duration + n }

/-- Display of the arrived statistic (a float percentage in the code;
abstracted to an exact fraction string). -/
def EvalPaths.arrived_show (t : EvalPaths) : String :=
  toString t.arrived_count ++ "/" ++ toString t.samples

/-- Display of the mean stretch (a float in the code; abstracted to an
exact fraction string). -/
def EvalPaths.stretch_show (t : EvalPaths) : String :=
  toString t.hops_sum ++ "/" ++ toString t.arrived_count

/-- Modelled from the spec: the DebugTracer session state
(debug_path.rs is not under src/): `init(from, to)` starts a trace. -/
structure DebugPath where
  initialized : Bool
  src : Nat
  dst : Nat
deriving Repr, DecidableEq

def DebugPath.init (_d : DebugPath) (f t : Nat) : DebugPath :=
  ⟨true, f, t⟩

/-- Modelled from the spec: one single-hop advance of the tracer; fails
when no session was initialized; the per-hop diagnostics are
abstracted. -/
def DebugPath.step_once (d : DebugPath) (_g : Graph)
    (_route : PathRequest → PathResult) : Except MyError (String × DebugPath) :=
  if d.initialized then Except.ok ("debug step\n", d)
  else Except.error ⟨"debug path not initialized"⟩

/-- Modelled from the spec: node positions and the Movements
collaborator are excluded "thin I/O wrappers".  `data_len` is the
number of stored positions, `version` an abstract state version bumped
by every position mutation, and `movement_updates` the instrumentation
count of `movements.step` invocations. -/
structure Locations where
  data_len : Nat
  version : Nat
  movement_updates : Nat
deriving Repr, DecidableEq

/-- One external movement update (`sim.movements.step(&mut sim.locations)`). -/
def Locations.movement_step (l : Locations) : Locations :=
  { l with version := l.version + 1, movement_updates := l.movement_updates + 1 }

def Locations.touch (l : Locations) : Locations :=
  { l with version := l.version + 1 }

def Locations.init_positions (l : Locations) (node_count : Nat) : Locations :=
  { l with data_len := node_count, version := l.version + 1 }

def Locations.clear (l : Locations) : Locations :=
  { l with data_len := 0, version := l.version + 1 }

/-- Modelled from the spec: the node metadata store (an excluded
import/export collaborator), abstracted like `Locations`. -/
structure MetaStore where
  data_len : Nat
  version : Nat
deriving Repr, DecidableEq

def MetaStore.touch (m : MetaStore) : MetaStore :=
  { m with version := m.version + 1 }

/-- Modelled from the spec: the GlobalState of sim.rs (not under src/),
with exactly the fields cmd.rs reads and writes: the graph, the single
active algorithm, the evaluation harness, the debug tracer, positions
and metadata, the step counter, the shared abort flag, the progress
flag, the command socket address and the export path. -/
structure GlobalState where
  graph : Graph
  algorithm : Algorithm
  test : EvalPaths
  debug_path : DebugPath
  locations : Locations
  meta : MetaStore
  sim_steps : Nat
  abort_simulation : Bool
  show_progress : Bool
  cmd_address : String
  export_path : String
deriving Repr, DecidableEq

/-- The external world of `cmd_handler`: script files (`File::open` in
the `run` command) and importable graphs (`import_file`). -/
structure Env where
  files : List (String × List String)
  imports : List (String × Graph)
deriving Repr

/-- The `AllowRecursiveCall` guard of cmd.rs. -/
inductive AllowRecursiveCall
  | No
  | Yes
deriving Repr, DecidableEq

/-- Append a `writeln!` line to the output string. -/
def wr (out s : String) : String := out ++ s ++ "\n"

/-- The `fmt_duration` helper of utils.rs (not under src/): wall-clock time is
outside the model, so durations are abstract tick counts. -/
def fmt_duration (d : Nat) : String := toString d ++ "ms"

/-- One iteration of the `sim_step` loop body: the algorithm's `step`
on a view of the graph, then the external movement update, then the
step counter increment. -/
def sim_step_iter (s : GlobalState) : GlobalState :=
  { s with algorithm := s.algorithm.step s.graph,
           locations := s.locations.movement_step,
           sim_steps := s.sim_steps + 1 }

/-- The `for step in 0..count` loop of the `SimStep` arm: the shared
abort flag is checked on entry to each iteration and never inside
one. -/
def sim_step_loop : Nat → GlobalState → GlobalState
  | 0, s => s
  | n + 1, s =>
    if s.abort_simulation then s else sim_step_loop n (sim_step_iter s)

/-- The `for _ in 0..steps` loop of the `DebugStep` arm; a failing
tracer step propagates its error (`?`), keeping the output written so
far. -/
def debug_steps (g : Graph) (route : PathRequest → PathResult) :
    Nat → String → DebugPath → String × DebugPath × Option MyError
  | 0, out, dp => (out, dp, none)
  | n + 1, out, dp =>
    match dp.step_once g route with
    | Except.error e => (out, dp, some e)
    | Except.ok (msg, dp2) => debug_steps g route n (out ++ msg) dp2

/-- Result of one `cmd_handler` match arm, before the common epilogue:
output written so far, the (possibly partially) mutated state, an early
`?` error if one was propagated, the `do_init` flag, and the list of
files opened (instrumentation for the script/import claims; the Rust
code has no such list, it is the trace of its `File::open` calls). -/
structure ArmOut where
  out : String
  sim : GlobalState
  err : Option MyError
  do_init : Bool
  opened : List String
deriving Repr, DecidableEq

/-- Final result of `cmd_handler`: as `ArmOut` after the epilogue
(`do_init` consumed). -/
structure HOut where
  out : String
  sim : GlobalState
  err : Option MyError
  opened : List String
deriving Repr, DecidableEq

/-- The common epilogue of `cmd_handler`: when no error was propagated
and `do_init` is set, reset the (new) algorithm to the (new) node count
and clear the evaluation harness.  The unconditional `export_file` call
writes a file and touches no simulation state; it is not modelled. -/
def finalize (a : ArmOut) : HOut :=
  match a.err with
  | some e => ⟨a.out, a.sim, some e, a.opened⟩
  | none =>
    if a.do_init then
      ⟨a.out,
       { a.sim with
          algorithm := a.sim.algorithm.reset a.sim.graph.node_count,
          test := a.sim.test.clear },
       none, a.opened⟩
    else ⟨a.out, a.sim, none, a.opened⟩

/-- The match of `cmd_handler` over the parsed command, translated arm
by arm from cmd.rs.  The `Run` arm here is the
`AllowRecursiveCall::No` behaviour (rejection); the `Yes` behaviour
lives in `cmd_handler` below. -/
def command_arms (env : Env) (out : String) (sim : GlobalState) :
    Command → ArmOut
  | Command.Ignore => ⟨out, sim, none, false, []⟩
  | Command.Progress os =>
    let sim2 := match os with
      | some b => { sim with show_progress := b }
      | none => sim
    ⟨wr out ("show progress: "
        ++ (if sim2.show_progress then "enabled" else "disabled")),
     sim2, none, false, []⟩
  | Command.Exit =>
    ⟨out, { sim with abort_simulation := true }, none, false, []⟩
  | Command.ShowMinimumSpanningTree =>
    let mst := sim.graph.minimum_spanning_tree
    let _mark := if mst.node_count > 0 then some mst else none
    ⟨out, sim, none, false, []⟩
  | Command.CropMinimumSpanningTree =>
    let mst := sim.graph.minimum_spanning_tree
    if mst.node_count > 0 then ⟨out, { sim with graph := mst }, none, false, []⟩
    else ⟨out, sim, none, false, []⟩
  | Command.Error msg => ⟨wr out msg, sim, none, false, []⟩
  | Command.Help =>
    ⟨COMMANDS.foldl
       (fun o item => if item.snd ≠ Cid.Error then wr o item.fst else o) out,
     sim, none, false, []⟩
  | Command.Get key =>
    match sim.algorithm.get key with
    | Except.ok buf => ⟨wr out buf, sim, none, false, []⟩
    | Except.error e => ⟨out, sim, some e, false, []⟩
  | Command.Set key value =>
    match sim.algorithm.set key value with
    | Except.ok a2 => ⟨out, { sim with algorithm := a2 }, none, false, []⟩
    | Except.error e => ⟨out, sim, some e, false, []⟩
  | Command.GraphInfo =>
    let o := wr out ("nodes: " ++ toString sim.graph.node_count
      ++ ", links: " ++ toString sim.graph.link_count)
    let o := wr o ("locations: " ++ toString sim.locations.data_len
      ++ ", metadata: " ++ toString sim.meta.data_len)
    let o := wr o ("average node degree: "
      ++ toString sim.graph.get_avg_node_degree)
    ⟨o, sim, none, false, []⟩
  | Command.SimInfo =>
    match sim.algorithm.get "name" with
    | Except.ok name =>
      ⟨out ++ " algo: " ++ name ++ "\n steps: " ++ toString sim.sim_steps ++ "\n",
       sim, none, false, []⟩
    | Except.error e => ⟨out ++ " algo: ", sim, some e, false, []⟩
  | Command.ClearGraph =>
    ⟨wr out "done", { sim with graph := sim.graph.clear }, none, true, []⟩
  | Command.ResetSim =>
    ⟨wr out "done",
     { sim with test := sim.test.clear, sim_steps := 0 }, none, true, []⟩
  | Command.SimStep count =>
    ⟨wr out ("Run " ++ toString count ++ " simulation steps, duration: "
        ++ fmt_duration 0),
     sim_step_loop count sim, none, false, []⟩
  | Command.Test samples =>
    let t0 := (sim.test.show_progress sim.show_progress).clear
    let t1 := t0.run_samples sim.graph (fun p => sim.algorithm.route p) samples
    ⟨wr out ("samples: " ++ toString samples
        ++ ",  arrived: " ++ t1.arrived_show
        ++ ", stretch: " ++ t1.stretch_show
        ++ ", duration: " ++ fmt_duration t1.duration),
     { sim with test := t1 }, none, false, []⟩
  | Command.Debug f t =>
    let node_count := sim.graph.node_count
    if f < node_count ∧ f < node_count then
      ⟨wr out ("Init path debugger: " ++ toString f ++ " => " ++ toString t),
       { sim with debug_path := sim.debug_path.init f t }, none, false, []⟩
    else
      ⟨wr out ("Invalid path: " ++ toString f ++ " => " ++ toString t),
       sim, none, false, []⟩
  | Command.DebugStep steps =>
    let r := debug_steps sim.graph (fun p => sim.algorithm.route p)
      steps out sim.debug_path
    ⟨r.fst, { sim with debug_path := r.snd.fst }, r.snd.snd, false, []⟩
  | Command.Import path =>
    match env.imports.lookup path with
    | some g =>
      ⟨wr out ("Import done: " ++ path),
       { sim with graph := g, locations := sim.locations.touch,
                  meta := sim.meta.touch },
       none, true, [path]⟩
    | none => ⟨out, sim, some ⟨"Import failed: " ++ path⟩, false, []⟩
  | Command.ExportPath p =>
    let sim2 := match p with
      | some path => { sim with export_path := path }
      | none => sim
    ⟨wr out ("Export done: " ++ sim2.export_path), sim2, none, false, []⟩
  | Command.AddLine count close =>
    ⟨out, { sim with graph := sim.graph.add_line count close }, none, true, []⟩
  | Command.MoveNodes _ _ _ =>
    ⟨out, { sim with locations := sim.locations.touch }, none, false, []⟩
  | Command.MoveNode _ _ _ _ =>
    ⟨out, { sim with locations := sim.locations.touch }, none, false, []⟩
  | Command.AddTree count intra =>
    ⟨out, { sim with graph := sim.graph.add_tree count intra }, none, true, []⟩
  | Command.AddStar count =>
    ⟨out, { sim with graph := sim.graph.add_star count }, none, true, []⟩
  | Command.AddLattice4 x y =>
    ⟨out, { sim with graph := sim.graph.add_lattice x y false }, none, true, []⟩
  | Command.AddLattice8 x y =>
    ⟨out, { sim with graph := sim.graph.add_lattice x y true }, none, true, []⟩
  | Command.Positions enable =>
    let sim2 := if enable then
        { sim with locations := sim.locations.init_positions sim.graph.node_count }
      else { sim with locations := sim.locations.clear }
    ⟨wr out ("positions: " ++ (if enable then "enabled" else "disabled")),
     sim2, none, false, []⟩
  | Command.RandomizePositions _ =>
    ⟨out, { sim with locations := sim.locations.touch }, none, false, []⟩
  | Command.ConnectInRange _ =>
    -- `connect_in_range` links nodes by geometric distance; positions are
    -- excluded collaborators, so the position-dependent links are not
    -- modelled (no claim depends on them).
    ⟨out, sim, none, false, []⟩
  | Command.Algorithm (some algo) =>
    if algo = "random" then
      ⟨wr out "Done", { sim with algorithm := Algorithm.new AlgoKind.random },
       none, true, []⟩
    else if algo = "vivaldi" then
      ⟨wr out "Done", { sim with algorithm := Algorithm.new AlgoKind.vivaldi },
       none, true, []⟩
    else if algo = "spring" then
      ⟨wr out "Done", { sim with algorithm := Algorithm.new AlgoKind.spring },
       none, true, []⟩
    else if algo = "genetic" then
      ⟨wr out "Done", { sim with algorithm := Algorithm.new AlgoKind.genetic },
       none, true, []⟩
    else if algo = "tree" then
      ⟨wr out "Done", { sim with algorithm := Algorithm.new AlgoKind.tree },
       none, true, []⟩
    else
      ⟨wr out ("Unknown algorithm: " ++ algo), sim, none, false, []⟩
  | Command.Algorithm none =>
    match sim.algorithm.get "name" with
    | Except.ok name =>
      ⟨out ++ "selected: " ++ name ++ "\n"
          ++ "available: random, vivaldi, spring, genetic, tree\n",
       sim, none, false, []⟩
    | Except.error e => ⟨out ++ "selected: ", sim, some e, false, []⟩
  | Command.Run path =>
    ⟨wr out ("Recursive call not allowed: " ++ path), sim, none, false, []⟩
  | Command.RemoveUnconnected =>
    ⟨out, { sim with graph := sim.graph.remove_unconnected_nodes },
     none, true, []⟩
  | Command.RemoveNodes ids =>
    ⟨out, { sim with graph := sim.graph.remove_nodes ids }, none, false, []⟩
  | Command.ConnectNodes ids =>
    ⟨out, { sim with graph := sim.graph.connect_nodes ids }, none, false, []⟩
  | Command.DisconnectNodes ids =>
    ⟨out, { sim with graph := sim.graph.disconnect_nodes ids }, none, false, []⟩
  | Command.MoveTo _ _ _ =>
    ⟨out, { sim with locations := sim.locations.touch }, none, false, []⟩

/-- The `cmd_handler` of cmd.rs specialised to `AllowRecursiveCall::No`: every command through
the arms above (the `Run` arm is the rejection), then the epilogue. -/
def cmd_handler_norec (env : Env) (out : String) (sim : GlobalState)
    (input : String) : HOut :=
  finalize (command_arms env out sim (parse_command input))

/-- The line loop of the `Run` arm with `AllowRecursiveCall::Yes`: each
script line is handled by a nested `cmd_handler` call with
`AllowRecursiveCall::No`; a propagated error is reported with the line
index, sets the shared abort flag, and breaks the loop. -/
def run_lines (env : Env) (path : String) :
    List String → Nat → String → GlobalState → String × GlobalState × List String
  | [], _, out, sim => (out, sim, [])
  | line :: rest, idx, out, sim =>
    let r := cmd_handler_norec env out sim line
    match r.err with
    | some e =>
      (r.out ++ "Error in " ++ path ++ ":" ++ toString idx ++ ": "
         ++ e.msg ++ "\n",
       { r.sim with abort_simulation := true }, r.opened)
    | none =>
      let rec2 := run_lines env path rest (idx + 1) r.out r.sim
      (rec2.fst, rec2.snd.fst, r.opened ++ rec2.snd.snd)

/-- The `cmd_handler` of cmd.rs.  With `AllowRecursiveCall::No` it is
`cmd_handler_norec`; with `Yes` only the `Run` arm differs: the script
file is opened and its lines are executed by nested handler calls with
`No`, so script execution never nests. -/
def cmd_handler (env : Env) (out : String) (sim : GlobalState)
    (input : String) : AllowRecursiveCall → HOut
  | AllowRecursiveCall.No => cmd_handler_norec env out sim input
  | AllowRecursiveCall.Yes =>
    match parse_command input with
    | Command.Run path =>
      match env.files.lookup path with
      | some lines =>
        let r := run_lines env path lines 0 out sim
        finalize ⟨r.fst, r.snd.fst, none, false, path :: r.snd.snd⟩
      | none =>
        finalize ⟨wr out ("File not found: " ++ path), sim, none, false, []⟩
    | c => finalize (command_arms env out sim c)

/-! Helper lemmas and concrete fixtures. -/

/-- An environment with one script file and no importable graphs. -/
def sample_env : Env := ⟨[("s.txt", ["get bogus", "sim_step 2"])], []⟩

/-- An environment with two script files: one failing on its first
line, one failing on its second line after a state-mutating prefix. -/
def script_env : Env :=
  ⟨[("s.txt", ["get bogus", "sim_step 2"]),
    ("t.txt", ["sim_step 1", "set a b"])], []⟩

/-- An empty environment. -/
def empty_env : Env := ⟨[], []⟩

/-- A small concrete state: two linked nodes, a random-routing
algorithm whose per-node state is sized to the graph, untouched
instrumentation counters, and nonzero evaluation accumulators left over
from an earlier run. -/
def sample_sim : GlobalState :=
  { graph := ⟨[0, 1], [(0, 1)]⟩,
    algorithm :=
      { kind := AlgoKind.random, size := 2, work := 0, params := [],
        resets := 0, steps_done := 0 },
    test :=
      { show_prog := false, samples := 5, arrived_count := 3, hops_sum := 7,
        duration := 5, clears := 0 },
    debug_path := ⟨false, 0, 0⟩,
    locations := ⟨0, 0, 0⟩,
    meta := ⟨0, 0⟩,
    sim_steps := 0,
    abort_simulation := false,
    show_progress := false,
    cmd_address := "",
    export_path := "graph.json" }

theorem sim_step_iter_abort (s : GlobalState) :
    (sim_step_iter s).abort_simulation = s.abort_simulation := rfl

/-- When the abort flag is clear it stays clear, and `n` loop
iterations perform exactly `n` algorithm steps, `n` movement updates
and `n` step-counter increments. -/
theorem sim_step_loop_spec (n : Nat) :
    ∀ s : GlobalState, s.abort_simulation = false →
      (sim_step_loop n s).algorithm.steps_done = s.algorithm.steps_done + n ∧
      (sim_step_loop n s).locations.movement_updates
        = s.locations.movement_updates + n ∧
      (sim_step_loop n s).sim_steps = s.sim_steps + n := by
  induction n with
  | zero => intro s _; simp [sim_step_loop]
  | succ k ih =>
    intro s h
    have h2 : (sim_step_iter s).abort_simulation = false := by
      rw [sim_step_iter_abort]; exact h
    obtain ⟨a, b, c⟩ := ih (sim_step_iter s) h2
    simp only [sim_step_loop, h, if_false, Bool.false_eq_true]
    refine ⟨?_, ?_, ?_⟩
    · rw [a]
      simp only [sim_step_iter, Algorithm.step]
      omega
    · rw [b]
      simp only [sim_step_iter, Locations.movement_step]
      omega
    · rw [c]
      simp only [sim_step_iter]
      omega

/-- With the abort flag set the loop performs nothing at all: the flag
is checked on entry of each iteration. -/
theorem sim_step_loop_aborted (n : Nat) (s : GlobalState)
    (h : s.abort_simulation = true) : sim_step_loop n s = s := by
  cases n <;> simp [sim_step_loop, h]

/-- A token whose first character differs from the head of `s` is not a
prefix of `s`. -/
theorem chars_match_head_ne (c : Char) (cs s : List Char)
    (h : ∀ d, s.head? = some d → d ≠ c) : chars_match (c :: cs) s = false := by
  cases s with
  | nil => rfl
  | cons d ds =>
    have hd : d ≠ c := h d rfl
    have hb : (c == d) = false := beq_eq_false_iff_ne.mpr (Ne.symm hd)
    simp [chars_match, hb]

/-- No entry of the given command table starts with `#`. -/
def cmd_table_heads_ok (l : List (String × Cid)) : Bool :=
  l.all (fun item =>
    match item.fst.data.head? with
    | some c => !(c == '#')
    | none => true)

/-- Scanning a `#`-free command table with a `#`-headed word always
falls through to `Cid.Error`. -/
theorem lookup_in_hash_is_error (l : List (String × Cid)) (cmd : String)
    (cs : List Char) (hc : cmd.data = '#' :: cs)
    (hl : cmd_table_heads_ok l = true) : lookup_in l cmd = Cid.Error := by
  induction l with
  | nil => rfl
  | cons item rest ih =>
    rw [cmd_table_heads_ok, List.all_cons, Bool.and_eq_true] at hl
    have hhead : ∀ d, item.fst.data.head? = some d → d ≠ '#' := by
      intro d hd
      have h1 := hl.left
      rw [hd] at h1
      intro he
      rw [he] at h1
      simp at h1
    have hfalse : is_first_token item.fst cmd = false := by
      rw [is_first_token, hc,
        chars_match_head_ne '#' cs item.fst.data hhead]
      simp
    rw [lookup_in, hfalse]
    simp only [Bool.false_eq_true, if_false]
    exact ih hl.right

/-- A command word that begins with `#` never matches the command
table. -/
theorem hash_cmd_lookup_error (cmd : String) (cs : List Char)
    (hc : cmd.data = '#' :: cs) : lookup_cmd cmd = Cid.Error :=
  lookup_in_hash_is_error COMMANDS cmd cs hc (by decide)

/-- A line whose command word is empty or begins with `#` parses as
`Command.Ignore`. -/
theorem parse_tokens_ignore (tokens : List String)
    (h : tokens.headD "" = "" ∨ (tokens.headD "").data.head? = some '#') :
    parse_tokens tokens = Command.Ignore := by
  rcases h with he | hh
  · have hl0 : lookup_cmd "" = Cid.Error := by decide
    simp only [parse_tokens, he, hl0]
    simp
  · rcases hd : (tokens.headD "").data with _ | ⟨d, ds⟩
    · rw [hd] at hh; simp at hh
    · have hdh : d = '#' := by
        rw [hd] at hh; simpa using hh
      subst hdh
      have hl : lookup_cmd (tokens.headD "") = Cid.Error :=
        hash_cmd_lookup_error _ ds hd
      have hne : ¬ tokens.headD "" = "" := by
        intro he
        rw [he] at hd
        simp at hd
      have hws : isWsChar '#' = false := by decide
      have htr : trimStartWs ('#' :: ds) = '#' :: ds := by
        rw [trimStartWs, hws]
        simp
      have hcm : chars_match ['#'] (trimStartWs ((tokens.headD "").data)) = true := by
        rw [hd, htr, chars_match]
        simp [chars_match]
      simp only [parse_tokens, hl, if_neg hne, hcm]
      simp

/-! The claims. -/

/-- C1: the claim says every command that changes the node count (for
example `remove_nodes` or `crop_mst`) ends with `reset(node_count)` on
the algorithm and `clear()` on the evaluation harness.  The code
violates this: on a two-node graph, `remove_nodes 0` drops the node
count from 2 to 1, yet the handler leaves `do_init` unset in the
`RemoveNodes` (and `CropMinimumSpanningTree`) arm, so neither `reset`
nor `clear` is invoked — the reset counter stays 0, the clear counter
stays 0, and the per-node state keeps its stale size 2. -/
theorem c1_remove_nodes_skips_reset_and_clear :
    sample_sim.graph.node_count = 2 ∧
    sample_sim.algorithm.size = 2 ∧
    (cmd_handler empty_env "" sample_sim "remove_nodes 0"
        AllowRecursiveCall.Yes).sim.graph.node_count = 1 ∧
    (cmd_handler empty_env "" sample_sim "remove_nodes 0"
        AllowRecursiveCall.Yes).sim.algorithm.resets = 0 ∧
    (cmd_handler empty_env "" sample_sim "remove_nodes 0"
        AllowRecursiveCall.Yes).sim.algorithm.size = 2 ∧
    (cmd_handler empty_env "" sample_sim "remove_nodes 0"
        AllowRecursiveCall.Yes).sim.test.clears = 0 ∧
    (cmd_handler empty_env "" sample_sim "remove_nodes 0"
        AllowRecursiveCall.Yes).err = none := by
  decide

/-- C2: a `sim_step count` command with the abort flag clear invokes
the algorithm's step and the movement update exactly `count` times,
increases `sim_steps` by exactly `count`, reports the elapsed duration,
and returns success. -/
theorem c2_sim_step_exact_counts (env : Env) (out : String)
    (sim : GlobalState) (input : String) (n : Nat)
    (hp : parse_command input = Command.SimStep n)
    (ha : sim.abort_simulation = false) :
    (cmd_handler env out sim input AllowRecursiveCall.Yes).sim.algorithm.steps_done
      = sim.algorithm.steps_done + n ∧
    (cmd_handler env out sim input AllowRecursiveCall.Yes).sim.locations.movement_updates
      = sim.locations.movement_updates + n ∧
    (cmd_handler env out sim input AllowRecursiveCall.Yes).sim.sim_steps
      = sim.sim_steps + n ∧
    (cmd_handler env out sim input AllowRecursiveCall.Yes).out
      = wr out ("Run " ++ toString n ++ " simulation steps, duration: "
          ++ fmt_duration 0) ∧
    (cmd_handler env out sim input AllowRecursiveCall.Yes).err = none := by
  obtain ⟨a, b, c⟩ := sim_step_loop_spec n sim ha
  simp only [cmd_handler, hp, command_arms, finalize]
  exact ⟨a, b, c, rfl, rfl⟩

/-- Witness for C2 at `sim_step 3` on the sample state. -/
theorem c2_witness :
    (cmd_handler empty_env "" sample_sim "sim_step 3"
        AllowRecursiveCall.Yes).sim.algorithm.steps_done
      = sample_sim.algorithm.steps_done + 3 ∧
    (cmd_handler empty_env "" sample_sim "sim_step 3"
        AllowRecursiveCall.Yes).sim.locations.movement_updates
      = sample_sim.locations.movement_updates + 3 ∧
    (cmd_handler empty_env "" sample_sim "sim_step 3"
        AllowRecursiveCall.Yes).sim.sim_steps = sample_sim.sim_steps + 3 ∧
    (cmd_handler empty_env "" sample_sim "sim_step 3"
        AllowRecursiveCall.Yes).out
      = wr "" ("Run " ++ toString 3 ++ " simulation steps, duration: "
          ++ fmt_duration 0) ∧
    (cmd_handler empty_env "" sample_sim "sim_step 3"
        AllowRecursiveCall.Yes).err = none :=
  c2_sim_step_exact_counts empty_env "" sample_sim "sim_step 3" 3
    (by decide) (by decide)

/-- C6: an `exit` command sets the shared abort flag; once that flag is
true, a `sim_step` command performs zero algorithm steps and zero
movement updates and leaves the state (in particular `sim_steps`)
unchanged, writing only the usual summary line — by `sim_step_loop`,
the flag is checked on entry of each iteration and never inside one. -/
theorem c6_abort_freezes_sim_step (env : Env) (out : String)
    (sim : GlobalState) (inputE inputS : String) (n : Nat)
    (hpE : parse_command inputE = Command.Exit)
    (hpS : parse_command inputS = Command.SimStep n) :
    cmd_handler env out sim inputE AllowRecursiveCall.Yes
      = ⟨out, { sim with abort_simulation := true }, none, []⟩ ∧
    cmd_handler env out { sim with abort_simulation := true } inputS
        AllowRecursiveCall.Yes
      = ⟨wr out ("Run " ++ toString n ++ " simulation steps, duration: "
            ++ fmt_duration 0),
         { sim with abort_simulation := true }, none, []⟩ := by
  have hloop := sim_step_loop_aborted n { sim with abort_simulation := true } rfl
  simp only [cmd_handler, hpE, hpS, command_arms, finalize, hloop]
  exact ⟨rfl, rfl⟩

/-- Witness for C6: `exit` then `sim_step 2` on the sample state. -/
theorem c6_witness :
    cmd_handler empty_env "" sample_sim "exit" AllowRecursiveCall.Yes
      = ⟨"", { sample_sim with abort_simulation := true }, none, []⟩ ∧
    cmd_handler empty_env "" { sample_sim with abort_simulation := true }
        "sim_step 2" AllowRecursiveCall.Yes
      = ⟨wr "" ("Run " ++ toString 2 ++ " simulation steps, duration: "
            ++ fmt_duration 0),
         { sample_sim with abort_simulation := true }, none, []⟩ :=
  c6_abort_freezes_sim_step empty_env "" sample_sim "exit" "sim_step 2" 2
    (by decide) (by decide)

/-- C7: a `run file` command handled with `AllowRecursiveCall::No`
(that is, from inside a script) is rejected with the
"Recursive call not allowed" message; no file is opened, no script line
is executed and the state is unchanged.  Script lines are always
executed with `AllowRecursiveCall.No` (see `run_lines`), so script
execution never nests deeper than one level. -/
theorem c7_nested_run_rejected (env : Env) (out : String)
    (sim : GlobalState) (input path : String)
    (hp : parse_command input = Command.Run path) :
    cmd_handler env out sim input AllowRecursiveCall.No
      = ⟨wr out ("Recursive call not allowed: " ++ path), sim, none, []⟩ := by
  simp only [cmd_handler, cmd_handler_norec, hp, command_arms, finalize]
  simp

/-- Witness for C7 at `run s.txt`: the file exists in the environment
but is not opened. -/
theorem c7_witness :
    cmd_handler sample_env "" sample_sim "run s.txt" AllowRecursiveCall.No
      = ⟨wr "" ("Recursive call not allowed: " ++ "s.txt"), sample_sim,
         none, []⟩ :=
  c7_nested_run_rejected sample_env "" sample_sim "run s.txt" "s.txt"
    (by decide)

/-- The state after a successful `algo` swap: a fresh instance of the
chosen variant, reset to the current node count by the epilogue, with
the evaluation harness cleared. -/
def algo_swapped (sim : GlobalState) (k : AlgoKind) : GlobalState :=
  { sim with algorithm := (Algorithm.new k).reset sim.graph.node_count,
             test := sim.test.clear }

/-- C3: `algo name` with one of the five known names replaces the
active algorithm by a fresh instance of that variant, followed by
`reset(node_count)` and a harness `clear` (the epilogue triggered by
`do_init`); any other name only reports "Unknown algorithm" and leaves
the whole state unchanged. -/
theorem c3_algorithm_factory (env : Env) (out : String) (sim : GlobalState)
    (input : String) (name : String)
    (hp : parse_command input = Command.Algorithm (some name)) :
    (name = "random" → cmd_handler env out sim input AllowRecursiveCall.Yes
        = ⟨wr out "Done", algo_swapped sim AlgoKind.random, none, []⟩) ∧
    (name = "vivaldi" → cmd_handler env out sim input AllowRecursiveCall.Yes
        = ⟨wr out "Done", algo_swapped sim AlgoKind.vivaldi, none, []⟩) ∧
    (name = "spring" → cmd_handler env out sim input AllowRecursiveCall.Yes
        = ⟨wr out "Done", algo_swapped sim AlgoKind.spring, none, []⟩) ∧
    (name = "genetic" → cmd_handler env out sim input AllowRecursiveCall.Yes
        = ⟨wr out "Done", algo_swapped sim AlgoKind.genetic, none, []⟩) ∧
    (name = "tree" → cmd_handler env out sim input AllowRecursiveCall.Yes
        = ⟨wr out "Done", algo_swapped sim AlgoKind.tree, none, []⟩) ∧
    (name ≠ "random" → name ≠ "vivaldi" → name ≠ "spring" →
      name ≠ "genetic" → name ≠ "tree" →
      cmd_handler env out sim input AllowRecursiveCall.Yes
        = ⟨wr out ("Unknown algorithm: " ++ name), sim, none, []⟩) := by
  refine ⟨?_, ?_, ?_, ?_, ?_, ?_⟩
  · intro h; subst h
    simp [cmd_handler, hp, command_arms, finalize, algo_swapped]
  · intro h; subst h
    simp [cmd_handler, hp, command_arms, finalize, algo_swapped]
  · intro h; subst h
    simp [cmd_handler, hp, command_arms, finalize, algo_swapped]
  · intro h; subst h
    simp [cmd_handler, hp, command_arms, finalize, algo_swapped]
  · intro h; subst h
    simp [cmd_handler, hp, command_arms, finalize, algo_swapped]
  · intro h1 h2 h3 h4 h5
    simp [cmd_handler, hp, command_arms, finalize, h1, h2, h3, h4, h5]

/-- Witness for C3: a known name swaps and resets, an unknown name is
reported and not applied. -/
theorem c3_witness :
    cmd_handler empty_env "" sample_sim "algo random" AllowRecursiveCall.Yes
      = ⟨wr "" "Done", algo_swapped sample_sim AlgoKind.random, none, []⟩ ∧
    cmd_handler empty_env "" sample_sim "algo foo" AllowRecursiveCall.Yes
      = ⟨wr "" ("Unknown algorithm: " ++ "foo"), sample_sim, none, []⟩ :=
  ⟨(c3_algorithm_factory empty_env "" sample_sim "algo random" "random"
      (by decide)).1 rfl,
   (c3_algorithm_factory empty_env "" sample_sim "algo foo" "foo"
      (by decide)).2.2.2.2.2 (by decide) (by decide) (by decide) (by decide)
      (by decide)⟩

/-- C8: `debug_init from to` initializes the path-debug session exactly
when `from` is below the node count — the condition of the `Debug` arm
compares `from` twice and never compares `to`, so the destination is
unconstrained (it may be out of range while an out-of-range source is
rejected with "Invalid path"). -/
theorem c8_debug_checks_source_only (env : Env) (out : String)
    (sim : GlobalState) (input : String) (f t : Nat)
    (hp : parse_command input = Command.Debug f t) :
    (f < sim.graph.node_count →
      cmd_handler env out sim input AllowRecursiveCall.Yes
        = ⟨wr out ("Init path debugger: " ++ toString f ++ " => " ++ toString t),
           { sim with debug_path := ⟨true, f, t⟩ }, none, []⟩) ∧
    (¬ f < sim.graph.node_count →
      cmd_handler env out sim input AllowRecursiveCall.Yes
        = ⟨wr out ("Invalid path: " ++ toString f ++ " => " ++ toString t),
           sim, none, []⟩) := by
  constructor
  · intro h
    simp only [cmd_handler, hp, command_arms, finalize]
    rw [if_pos ⟨h, h⟩]
    simp [DebugPath.init]
  · intro h
    simp only [cmd_handler, hp, command_arms, finalize]
    rw [if_neg (fun hc => h hc.left)]
    simp

/-- Witness for C8: on the two-node sample graph, source 0 with the
out-of-range destination 99 initializes a session, while source 5 is
rejected. -/
theorem c8_witness :
    cmd_handler empty_env "" sample_sim "debug_init 0 99" AllowRecursiveCall.Yes
      = ⟨wr "" ("Init path debugger: " ++ toString 0 ++ " => " ++ toString 99),
         { sample_sim with debug_path := ⟨true, 0, 99⟩ }, none, []⟩ ∧
    cmd_handler empty_env "" sample_sim "debug_init 5 0" AllowRecursiveCall.Yes
      = ⟨wr "" ("Invalid path: " ++ toString 5 ++ " => " ++ toString 0),
         sample_sim, none, []⟩ :=
  ⟨(c8_debug_checks_source_only empty_env "" sample_sim "debug_init 0 99" 0 99
      (by decide)).1 (by decide),
   (c8_debug_checks_source_only empty_env "" sample_sim "debug_init 5 0" 5 0
      (by decide)).2 (by decide)⟩

/-- C5: the `test` command clears the harness before `run_samples`, so
its report and the resulting accumulators are identical for any two
states that differ only in the prior accumulator contents — no residue
of a previous run is ever included — and the sample count of the run
equals the requested count; graph, algorithm and step counter are
untouched. -/
theorem c5_test_no_residue (env : Env) (out : String) (sim : GlobalState)
    (t2 : EvalPaths) (input : String) (n : Nat)
    (hp : parse_command input = Command.Test n) :
    (cmd_handler env out sim input AllowRecursiveCall.Yes).out
      = (cmd_handler env out { sim with test := t2 } input
          AllowRecursiveCall.Yes).out ∧
    (cmd_handler env out sim input AllowRecursiveCall.Yes).sim.test.samples
      = (cmd_handler env out { sim with test := t2 } input
          AllowRecursiveCall.Yes).sim.test.samples ∧
    (cmd_handler env out sim input AllowRecursiveCall.Yes).sim.test.arrived_count
      = (cmd_handler env out { sim with test := t2 } input
          AllowRecursiveCall.Yes).sim.test.arrived_count ∧
    (cmd_handler env out sim input AllowRecursiveCall.Yes).sim.test.hops_sum
      = (cmd_handler env out { sim with test := t2 } input
          AllowRecursiveCall.Yes).sim.test.hops_sum ∧
    (cmd_handler env out sim input AllowRecursiveCall.Yes).sim.test.duration
      = (cmd_handler env out { sim with test := t2 } input
          AllowRecursiveCall.Yes).sim.test.duration ∧
    (cmd_handler env out sim input AllowRecursiveCall.Yes).sim.test.samples = n ∧
    (cmd_handler env out sim input AllowRecursiveCall.Yes).err = none ∧
    (cmd_handler env out sim input AllowRecursiveCall.Yes).sim.graph = sim.graph ∧
    (cmd_handler env out sim input AllowRecursiveCall.Yes).sim.algorithm
      = sim.algorithm ∧
    (cmd_handler env out sim input AllowRecursiveCall.Yes).sim.sim_steps
      = sim.sim_steps := by
  simp only [cmd_handler, hp, command_arms, finalize]
  repeat' apply And.intro
  all_goals
    first
      | rfl
      | simp [EvalPaths.run_samples, EvalPaths.clear, EvalPaths.show_progress]

/-- Witness for C5: `test 4` from the sample state and from the same
state with completely different residual accumulators. -/
theorem c5_witness :
    (cmd_handler empty_env "" sample_sim "test 4" AllowRecursiveCall.Yes).out
      = (cmd_handler empty_env "" { sample_sim with test := ⟨true, 9, 9, 9, 9, 9⟩ }
          "test 4" AllowRecursiveCall.Yes).out ∧
    (cmd_handler empty_env "" sample_sim "test 4"
        AllowRecursiveCall.Yes).sim.test.samples
      = (cmd_handler empty_env "" { sample_sim with test := ⟨true, 9, 9, 9, 9, 9⟩ }
          "test 4" AllowRecursiveCall.Yes).sim.test.samples ∧
    (cmd_handler empty_env "" sample_sim "test 4"
        AllowRecursiveCall.Yes).sim.test.arrived_count
      = (cmd_handler empty_env "" { sample_sim with test := ⟨true, 9, 9, 9, 9, 9⟩ }
          "test 4" AllowRecursiveCall.Yes).sim.test.arrived_count ∧
    (cmd_handler empty_env "" sample_sim "test 4"
        AllowRecursiveCall.Yes).sim.test.hops_sum
      = (cmd_handler empty_env "" { sample_sim with test := ⟨true, 9, 9, 9, 9, 9⟩ }
          "test 4" AllowRecursiveCall.Yes).sim.test.hops_sum ∧
    (cmd_handler empty_env "" sample_sim "test 4"
        AllowRecursiveCall.Yes).sim.test.duration
      = (cmd_handler empty_env "" { sample_sim with test := ⟨true, 9, 9, 9, 9, 9⟩ }
          "test 4" AllowRecursiveCall.Yes).sim.test.duration ∧
    (cmd_handler empty_env "" sample_sim "test 4"
        AllowRecursiveCall.Yes).sim.test.samples = 4 ∧
    (cmd_handler empty_env "" sample_sim "test 4" AllowRecursiveCall.Yes).err
      = none ∧
    (cmd_handler empty_env "" sample_sim "test 4"
        AllowRecursiveCall.Yes).sim.graph = sample_sim.graph ∧
    (cmd_handler empty_env "" sample_sim "test 4"
        AllowRecursiveCall.Yes).sim.algorithm = sample_sim.algorithm ∧
    (cmd_handler empty_env "" sample_sim "test 4"
        AllowRecursiveCall.Yes).sim.sim_steps = sample_sim.sim_steps :=
  c5_test_no_residue empty_env "" sample_sim ⟨true, 9, 9, 9, 9, 9⟩ "test 4" 4
    (by decide)

/-- C4 counterexample: the claim asserts that a failing `get` inside a
script leaves the abort flag unset; in fact the `run` loop sets
`abort_simulation` when a line's handler returns an error. -/
theorem c4_counterexample_script_error_sets_abort :
    sample_sim.abort_simulation = false ∧
    (cmd_handler sample_env "" sample_sim "run s.txt"
        AllowRecursiveCall.Yes).sim.abort_simulation = true := by
  decide

/-- Execution of a list of script lines, each through the nested
`AllowRecursiveCall::No` handler, assuming none of them propagates an
error: the final output, the final state and the opened files — the
state the `run` loop has reached before a later line runs. -/
def after_lines (env : Env) :
    List String → String → GlobalState → String × GlobalState × List String
  | [], out, sim => (out, sim, [])
  | line :: rest, out, sim =>
    let r := cmd_handler_norec env out sim line
    let rec2 := after_lines env rest r.out r.sim
    (rec2.fst, rec2.snd.fst, r.opened ++ rec2.snd.snd)

/-- Every line of a script prefix executes without a propagated error,
each from the output/state its predecessors reached. -/
def lines_ok (env : Env) : List String → String → GlobalState → Bool
  | [], _, _ => true
  | line :: rest, out, sim =>
    let r := cmd_handler_norec env out sim line
    r.err.isNone && lines_ok env rest r.out r.sim

/-- The `run` line loop on a script whose lines before an erroring line
all succeed: the loop reports the error together with the erroring
line's index (`enumerate()` position), sets the abort flag on the state
reached by the preceding lines, and executes none of the remaining
lines — the result does not mention `rest` at all. -/
theorem run_lines_stops_at_error (env : Env) (path bad : String)
    (rest : List String) :
    ∀ (pre : List String) (idx : Nat) (out : String) (sim : GlobalState)
      (e : MyError),
      lines_ok env pre out sim = true →
      cmd_handler_norec env (after_lines env pre out sim).fst
          (after_lines env pre out sim).snd.fst bad
        = ⟨(after_lines env pre out sim).fst,
           (after_lines env pre out sim).snd.fst, some e, []⟩ →
      run_lines env path (pre ++ bad :: rest) idx out sim
        = ((after_lines env pre out sim).fst ++ "Error in " ++ path ++ ":"
             ++ toString (idx + pre.length) ++ ": " ++ e.msg ++ "\n",
           { (after_lines env pre out sim).snd.fst with
              abort_simulation := true },
           (after_lines env pre out sim).snd.snd) := by
  intro pre
  induction pre with
  | nil =>
    intro idx out sim e _ hstep
    simp only [after_lines] at hstep ⊢
    simp only [List.nil_append, run_lines, hstep]
    simp
  | cons l pre2 ih =>
    intro idx out sim e hok hstep
    simp only [lines_ok, Bool.and_eq_true] at hok
    have herr : (cmd_handler_norec env out sim l).err = none :=
      Option.isNone_iff_eq_none.mp hok.left
    simp only [after_lines] at hstep ⊢
    simp only [List.cons_append, run_lines, herr]
    simp only [List.append_eq]
    rw [ih (idx + 1) (cmd_handler_norec env out sim l).out
      (cmd_handler_norec env out sim l).sim e hok.right hstep]
    have harith : idx + 1 + pre2.length = idx + (l :: pre2).length := by
      simp [List.length_cons]
      omega
    rw [harith]

/-- C4 (amended): a `get`/`set` with an unrecognized key produces an
UnknownParameter error that is returned to the caller; at top level the
simulation state is completely unchanged — in particular the abort flag
stays as it was.  When the failing `get` or `set` is a line of a script
executed via `run`, at any position after an error-free prefix, the
error is reported in the script output together with that line's index,
no later line of the script is executed, and the shared abort flag is
set on the state the preceding lines reached. -/
theorem c4_unknown_parameter_amended (env : Env) (out outS : String)
    (sim simS : GlobalState) (inputG inputS inputR : String)
    (key keyS value path bad kB vB : String) (pre rest : List String)
    (e eS eB : MyError)
    (hpG : parse_command inputG = Command.Get key)
    (hg : sim.algorithm.get key = Except.error e)
    (hpS : parse_command inputS = Command.Set keyS value)
    (hs : simS.algorithm.set keyS value = Except.error eS)
    (hpR : parse_command inputR = Command.Run path)
    (hf : env.files.lookup path = some (pre ++ bad :: rest))
    (hok : lines_ok env pre out sim = true)
    (hbad : (parse_command bad = Command.Get kB ∧
              (after_lines env pre out sim).snd.fst.algorithm.get kB
                = Except.error eB) ∨
            (parse_command bad = Command.Set kB vB ∧
              (after_lines env pre out sim).snd.fst.algorithm.set kB vB
                = Except.error eB)) :
    cmd_handler env out sim inputG AllowRecursiveCall.Yes
      = ⟨out, sim, some e, []⟩ ∧
    cmd_handler env outS simS inputS AllowRecursiveCall.Yes
      = ⟨outS, simS, some eS, []⟩ ∧
    cmd_handler env out sim inputR AllowRecursiveCall.Yes
      = ⟨(after_lines env pre out sim).fst ++ "Error in " ++ path ++ ":"
           ++ toString pre.length ++ ": " ++ eB.msg ++ "\n",
         { (after_lines env pre out sim).snd.fst with
            abort_simulation := true },
         none, path :: (after_lines env pre out sim).snd.snd⟩ := by
  refine ⟨?_, ?_, ?_⟩
  · simp only [cmd_handler, hpG, command_arms, hg, finalize]
  · simp only [cmd_handler, hpS, command_arms, hs, finalize]
  · have hstep : cmd_handler_norec env (after_lines env pre out sim).fst
        (after_lines env pre out sim).snd.fst bad
        = ⟨(after_lines env pre out sim).fst,
           (after_lines env pre out sim).snd.fst, some eB, []⟩ := by
      rcases hbad with ⟨hpB, hgB⟩ | ⟨hpB, hsB⟩
      · simp only [cmd_handler_norec, hpB, command_arms, hgB, finalize]
      · simp only [cmd_handler_norec, hpB, command_arms, hsB, finalize]
    have hrun := run_lines_stops_at_error env path bad rest pre 0 out sim eB
      hok hstep
    rw [Nat.zero_add] at hrun
    simp only [cmd_handler, hpR, hf, hrun, finalize]
    simp

/-- Witness for C4's amended statement: unknown keys `bogus`/`a` on the
sample algorithm at top level, and a failing `set a b` as the second
line of `t.txt`, after the state-mutating prefix line `sim_step 1`. -/
theorem c4_witness :
    cmd_handler script_env "" sample_sim "get bogus" AllowRecursiveCall.Yes
      = ⟨"", sample_sim, some ⟨"Unknown parameter: bogus"⟩, []⟩ ∧
    cmd_handler script_env "" sample_sim "set a b" AllowRecursiveCall.Yes
      = ⟨"", sample_sim, some ⟨"Unknown parameter: a"⟩, []⟩ ∧
    cmd_handler script_env "" sample_sim "run t.txt" AllowRecursiveCall.Yes
      = ⟨(after_lines script_env ["sim_step 1"] "" sample_sim).fst
           ++ "Error in " ++ "t.txt" ++ ":"
           ++ toString (List.length ["sim_step 1"]) ++ ": "
           ++ "Unknown parameter: a" ++ "\n",
         { (after_lines script_env ["sim_step 1"] "" sample_sim).snd.fst with
            abort_simulation := true },
         none,
         "t.txt" :: (after_lines script_env ["sim_step 1"] "" sample_sim).snd.snd⟩ :=
  c4_unknown_parameter_amended script_env "" "" sample_sim sample_sim
    "get bogus" "set a b" "run t.txt" "bogus" "a" "b" "t.txt" "set a b"
    "a" "b" ["sim_step 1"] [] ⟨"Unknown parameter: bogus"⟩
    ⟨"Unknown parameter: a"⟩ ⟨"Unknown parameter: a"⟩
    (by decide) (by rfl) (by decide) (by rfl) (by decide) (by decide)
    (by decide) (Or.inr ⟨by decide, by rfl⟩)

/-- The graph mutation selected by the command word of a node-list
command. -/
def node_list_mutation (w : String) (g : Graph) (ids : List Nat) : Graph :=
  if w = "remove_nodes" then g.remove_nodes ids
  else if w = "connect_nodes" then g.connect_nodes ids
  else g.disconnect_nodes ids

/-- C9: for `remove_nodes`, `connect_nodes` and `disconnect_nodes`, the
graph mutation runs only when every comma-separated piece of the
argument parses as a `u32` (`parse_list`); if any piece fails — or the
argument is missing — the whole command degrades to the
"Missing Arguments" error and the state is untouched. -/
theorem c9_node_list_all_or_nothing (env : Env) (out : String)
    (sim : GlobalState) (input : String) (w : String) (rest : List String)
    (h0 : tokenize input = w :: rest)
    (hw : w = "remove_nodes" ∨ w = "connect_nodes" ∨ w = "disconnect_nodes") :
    cmd_handler env out sim input AllowRecursiveCall.Yes
      = match parse_list rest.head? with
        | none => ⟨wr out "Missing Arguments", sim, none, []⟩
        | some ids =>
          ⟨out, { sim with graph := node_list_mutation w sim.graph ids },
           none, []⟩ := by
  have hpc : parse_command input = parse_tokens (w :: rest) := by
    rw [parse_command, h0]
  have hget : ∀ v : String, (v :: rest).get? 1 = rest.head? := by
    intro v; cases rest <;> rfl
  rcases hw with hw | hw | hw <;> subst hw
  · have hl : lookup_cmd "remove_nodes" = Cid.RemoveNodes := by decide
    have hcmd : parse_tokens ("remove_nodes" :: rest)
        = match parse_list rest.head? with
          | some ids => Command.RemoveNodes ids
          | none => Command.Error "Missing Arguments" := by
      simp only [parse_tokens, List.headD_cons, hl, hget]
    cases hpl : parse_list rest.head? with
    | none =>
      rw [hpl] at hcmd
      simp at hcmd
      have hp2 := hpc.trans hcmd
      simp only [cmd_handler, hp2, command_arms, finalize]
      simp
    | some ids =>
      rw [hpl] at hcmd
      simp at hcmd
      have hp2 := hpc.trans hcmd
      have hm : node_list_mutation "remove_nodes" sim.graph ids
          = sim.graph.remove_nodes ids := by
        unfold node_list_mutation
        rw [if_pos rfl]
      simp only [cmd_handler, hp2, command_arms, finalize]
      simp [hm]
  · have hl : lookup_cmd "connect_nodes" = Cid.ConnectNodes := by decide
    have hcmd : parse_tokens ("connect_nodes" :: rest)
        = match parse_list rest.head? with
          | some ids => Command.ConnectNodes ids
          | none => Command.Error "Missing Arguments" := by
      simp only [parse_tokens, List.headD_cons, hl, hget]
    cases hpl : parse_list rest.head? with
    | none =>
      rw [hpl] at hcmd
      simp at hcmd
      have hp2 := hpc.trans hcmd
      simp only [cmd_handler, hp2, command_arms, finalize]
      simp
    | some ids =>
      rw [hpl] at hcmd
      simp at hcmd
      have hp2 := hpc.trans hcmd
      have hm : node_list_mutation "connect_nodes" sim.graph ids
          = sim.graph.connect_nodes ids := by
        unfold node_list_mutation
        rw [if_neg (by decide), if_pos rfl]
      simp only [cmd_handler, hp2, command_arms, finalize]
      simp [hm]
  · have hl : lookup_cmd "disconnect_nodes" = Cid.DisconnectNodes := by decide
    have hcmd : parse_tokens ("disconnect_nodes" :: rest)
        = match parse_list rest.head? with
          | some ids => Command.DisconnectNodes ids
          | none => Command.Error "Missing Arguments" := by
      simp only [parse_tokens, List.headD_cons, hl, hget]
    cases hpl : parse_list rest.head? with
    | none =>
      rw [hpl] at hcmd
      simp at hcmd
      have hp2 := hpc.trans hcmd
      simp only [cmd_handler, hp2, command_arms, finalize]
      simp
    | some ids =>
      rw [hpl] at hcmd
      simp at hcmd
      have hp2 := hpc.trans hcmd
      have hm : node_list_mutation "disconnect_nodes" sim.graph ids
          = sim.graph.disconnect_nodes ids := by
        unfold node_list_mutation
        rw [if_neg (by decide), if_neg (by decide)]
      simp only [cmd_handler, hp2, command_arms, finalize]
      simp [hm]

/-- Witness for C9: `remove_nodes 1,x` fails atomically, while
`remove_nodes 1` removes node 1. -/
theorem c9_witness :
    cmd_handler empty_env "" sample_sim "remove_nodes 1,x"
        AllowRecursiveCall.Yes
      = ⟨wr "" "Missing Arguments", sample_sim, none, []⟩ ∧
    cmd_handler empty_env "" sample_sim "remove_nodes 1"
        AllowRecursiveCall.Yes
      = ⟨"", { sample_sim with
                graph := node_list_mutation "remove_nodes" sample_sim.graph [1] },
         none, []⟩ := by
  have h1 := c9_node_list_all_or_nothing empty_env "" sample_sim
    "remove_nodes 1,x" "remove_nodes" ["1,x"] (by decide) (Or.inl rfl)
  have h2 := c9_node_list_all_or_nothing empty_env "" sample_sim
    "remove_nodes 1" "remove_nodes" ["1"] (by decide) (Or.inl rfl)
  exact ⟨h1.trans (by decide), h2.trans (by decide)⟩

/-- C10: a line that is empty (or all whitespace) or whose first token
begins with `#` parses as `Command.Ignore`; the handler then succeeds,
writes nothing to the command output, opens no file and changes no
field of the simulation state. -/
theorem c10_ignore_lines_no_effect (env : Env) (out : String)
    (sim : GlobalState) (input : String) (call : AllowRecursiveCall)
    (h : (tokenize input).headD "" = "" ∨
         ((tokenize input).headD "").data.head? = some '#') :
    parse_command input = Command.Ignore ∧
    cmd_handler env out sim input call = ⟨out, sim, none, []⟩ := by
  have hp : parse_command input = Command.Ignore :=
    parse_tokens_ignore (tokenize input) h
  refine ⟨hp, ?_⟩
  cases call
  · simp only [cmd_handler, cmd_handler_norec, hp, command_arms, finalize]
    simp
  · simp only [cmd_handler, hp, command_arms, finalize]
    simp

/-- Witness for C10: a comment line and the empty line, under both
recursion modes. -/
theorem c10_witness :
    (parse_command "# comment" = Command.Ignore ∧
      cmd_handler empty_env "" sample_sim "# comment" AllowRecursiveCall.Yes
        = ⟨"", sample_sim, none, []⟩) ∧
    (parse_command "" = Command.Ignore ∧
      cmd_handler empty_env "" sample_sim "" AllowRecursiveCall.No
        = ⟨"", sample_sim, none, []⟩) :=
  ⟨c10_ignore_lines_no_effect empty_env "" sample_sim "# comment"
      AllowRecursiveCall.Yes (Or.inr (by decide)),
   c10_ignore_lines_no_effect empty_env "" sample_sim ""
      AllowRecursiveCall.No (Or.inl (by decide))⟩

end MeshNet
